import Mathlib

/-!
Verification of the Kala Sahayak listing-generation pipeline.

This file gives a shallow embedding of the pipeline logic found in
`app.py` (direct orchestration) and `crew_mvp.py` (agentic variant):
the photo-enhancement stage (`remove_background`), the content stage
(`generate_creative_content`), the finalization step (`mock_url`), the
price-display precedence (`display_results`), and the agentic variant's
consolidation (`consolidate_data`) and mock publish
(`publish_to_web_gallery`) steps.

External capabilities (the HTTP background-removal service, the hosted
language model, Python's built-in `hash`, and the standard-library
parsers `json.loads` / `ast.literal_eval`) are modeled as explicit
environment parameters: an outcome value or an oracle function supplied
to each stage.  Python dictionaries are modeled as ordered association
lists with distinct keys, matching Python's insertion-ordered dicts.
Python numeric values are modeled as integers; float-specific behavior
is outside the scope of the claims checked here.
-/

namespace KalaSahayak

/-! ### String helpers modeling Python string primitives -/

/-- The whitespace characters removed by Python's `str.strip()`. -/
def pyWhitespace (c : Char) : Bool :=
  c == ' ' || c == '\t' || c == '\n' || c == '\r' || c == '\x0b' || c == '\x0c'

/-- Drop the longest run of characters satisfying `p` from the front. -/
def dropLeading (p : Char → Bool) : List Char → List Char
  | [] => []
  | c :: cs => if p c then dropLeading p cs else c :: cs

/-- Python `str.strip()`: remove leading and trailing whitespace. -/
def pyStrip (s : String) : String :=
  ⟨(dropLeading pyWhitespace ((dropLeading pyWhitespace s.data).reverse)).reverse⟩

/-- Fuel-driven core of Python `str.replace`: replace non-overlapping
occurrences of `pat` left to right. -/
def replaceFuel (pat rep : List Char) : Nat → List Char → List Char
  | 0, cs => cs
  | _ + 1, [] => []
  | fuel + 1, c :: cs =>
    if pat.isPrefixOf (c :: cs) then
      rep ++ replaceFuel pat rep fuel (List.drop pat.length (c :: cs))
    else
      c :: replaceFuel pat rep fuel cs

/-- Python `s.replace(pat, rep)` (for non-empty `pat`). -/
def pyReplace (s pat rep : String) : String :=
  ⟨replaceFuel pat.data rep.data (s.data.length + 1) s.data⟩

/-- Whether `needle` occurs as a contiguous sublist of `hay`. -/
def containsSubL (needle : List Char) : List Char → Bool
  | [] => needle.isEmpty
  | c :: cs => needle.isPrefixOf (c :: cs) || containsSubL needle cs

/-- Whether `needle` occurs as a substring of `hay` (Python `needle in hay`). -/
def containsSub (needle hay : String) : Bool :=
  containsSubL needle.data hay.data

/-- Python slicing `s[:n]`. -/
def strTake (s : String) (n : Nat) : String :=
  ⟨s.data.take n⟩

/-- `os.path.basename` on POSIX: the part after the last slash. -/
def basename (s : String) : String :=
  ⟨(s.data.reverse.takeWhile (fun c => c != '/')).reverse⟩

/-! ### Python / JSON values -/

/-- A Python value as produced by `json.loads` or `ast.literal_eval`,
restricted to the shapes the pipeline exchanges: `None`, booleans,
integers, strings, lists, tuples and string-keyed dicts. -/
inductive PyVal where
  | none : PyVal
  | bool : Bool → PyVal
  | int : Int → PyVal
  | str : String → PyVal
  | list : List PyVal → PyVal
  | tuple : List PyVal → PyVal
  | dict : List (String × PyVal) → PyVal

/-- First-match lookup in an association list (Python dict access;
parsed Python dicts have distinct keys). -/
def lookupStr (kvs : List (String × PyVal)) (k : String) : Option PyVal :=
  match kvs with
  | [] => Option.none
  | (k', v) :: rest => if k' = k then some v else lookupStr rest k

/-- Python `k in d` for a dict. -/
def hasKey (kvs : List (String × PyVal)) (k : String) : Bool :=
  kvs.any (fun p => decide (p.1 = k))

/-- Python `d.update(u)`: existing keys keep their position but take the
new value; new keys are appended in `u`'s order. -/
def updateD (d u : List (String × PyVal)) : List (String × PyVal) :=
  (d.map (fun p =>
    match lookupStr u p.1 with
    | some v => (p.1, v)
    | Option.none => p)) ++ u.filter (fun p => !(hasKey d p.1))

/-- The Python type name of a modeled value (as it appears in
`TypeError` / `AttributeError` messages). -/
def pyTypeName : PyVal → String
  | .none => "NoneType"
  | .bool _ => "bool"
  | .int _ => "int"
  | .str _ => "str"
  | .list _ => "list"
  | .tuple _ => "tuple"
  | .dict _ => "dict"

/-- One element of a non-dict argument to `dict.update`, when CPython
accepts it and the resulting key is a string: a two-element list
`[k, v]` with string `k` gives the pair `(k, v)`; a two-character
string unpacks into its two characters; a two-entry dict unpacks into
its two keys.  Shapes CPython rejects (wrong arity, non-iterable
element, unhashable key) yield `none`; so do the accepted shapes whose
key is not a string (e.g. `[1, v]`), which this string-keyed model
cannot represent — `orchestrate` folds those into its raise branch. -/
def pyPairOfElem : PyVal → Option (String × PyVal)
  | .list [.str k, v] => some (k, v)
  | .str s =>
    if s.length = 2 then some (strTake s 1, .str ⟨s.data.drop 1⟩) else Option.none
  | .dict [(k1, _), (k2, _)] => some (k1, .str k2)
  | _ => Option.none

/-- The key/value pairs `dict.update` extracts from a list argument, or
`none` when some element makes it raise (or is not representable). -/
def pyUpdatePairs : List PyVal → Option (List (String × PyVal))
  | [] => some []
  | e :: es =>
    match pyPairOfElem e, pyUpdatePairs es with
    | some p, some ps => some (p :: ps)
    | _, _ => Option.none

/-- Python `"error" in xs` for a parsed JSON list: membership compares
the string `"error"` with each element (only a string element can be
equal to it). -/
def listHasErrorElem (xs : List PyVal) : Bool :=
  xs.any (fun v =>
    match v with
    | .str s => decide (s = "error")
    | _ => false)

/-- Escaping of one character inside a JSON string literal. -/
def jsonEscapeChar (c : Char) : List Char :=
  if c = '"' then ['\\', '"']
  else if c = '\\' then ['\\', '\\']
  else if c = '\n' then ['\\', 'n']
  else if c = '\t' then ['\\', 't']
  else if c = '\r' then ['\\', 'r']
  else [c]

/-- A JSON string literal for `s`. -/
def jsonQuote (s : String) : String :=
  ⟨'"' :: (s.data.map jsonEscapeChar).flatten ++ ['"']⟩

mutual

/-- Python `json.dumps` with default separators.  Tuples serialize as
JSON arrays, exactly as in Python. -/
def json_dumps : PyVal → String
  | .none => "null"
  | .bool b => if b then "true" else "false"
  | .int n => toString n
  | .str s => jsonQuote s
  | .list xs => "[" ++ String.intercalate ", " (json_dumpsList xs) ++ "]"
  | .tuple xs => "[" ++ String.intercalate ", " (json_dumpsList xs) ++ "]"
  | .dict kvs => "\x7b" ++ String.intercalate ", " (json_dumpsKvs kvs) ++ "\x7d"

/-- Serialize each element of a list. -/
def json_dumpsList : List PyVal → List String
  | [] => []
  | v :: vs => json_dumps v :: json_dumpsList vs

/-- Serialize each `key: value` entry of a dict. -/
def json_dumpsKvs : List (String × PyVal) → List String
  | [] => []
  | (k, v) :: rest => (jsonQuote k ++ ": " ++ json_dumps v) :: json_dumpsKvs rest

end

mutual

/-- The composite `json.loads (json.dumps v)` at the value level, per the
Python `json` module's documented coercions: tuples come back as lists,
everything else in `PyVal`'s domain round-trips unchanged. -/
def toJsonNorm : PyVal → PyVal
  | .none => .none
  | .bool b => .bool b
  | .int n => .int n
  | .str s => .str s
  | .list xs => .list (toJsonNormList xs)
  | .tuple xs => .list (toJsonNormList xs)
  | .dict kvs => .dict (toJsonNormKvs kvs)

/-- `toJsonNorm` on each element of a list. -/
def toJsonNormList : List PyVal → List PyVal
  | [] => []
  | v :: vs => toJsonNorm v :: toJsonNormList vs

/-- `toJsonNorm` on each value of a dict. -/
def toJsonNormKvs : List (String × PyVal) → List (String × PyVal)
  | [] => []
  | (k, v) :: rest => (k, toJsonNorm v) :: toJsonNormKvs rest

end

mutual

/-- Whether a value contains no tuple anywhere (the values JSON can
represent directly). -/
def tupleFree : PyVal → Bool
  | .none => true
  | .bool _ => true
  | .int _ => true
  | .str _ => true
  | .list xs => tupleFreeList xs
  | .tuple _ => false
  | .dict kvs => tupleFreeKvs kvs

/-- `tupleFree` on every element of a list. -/
def tupleFreeList : List PyVal → Bool
  | [] => true
  | v :: vs => tupleFree v && tupleFreeList vs

/-- `tupleFree` on every value of a dict. -/
def tupleFreeKvs : List (String × PyVal) → Bool
  | [] => true
  | (_, v) :: rest => tupleFree v && tupleFreeKvs rest

end

/-! ### `app.py`: photo-enhancement stage (`remove_background`) -/

/-- Outcome of the external `requests.post` call to the
background-removal endpoint: either a response with a status code and
body text, or a raised transport exception with its message. -/
inductive HttpOutcome where
  | resp (status : Nat) (text : String)
  | exn (msg : String)

/-- The environment `remove_background` reads: the `CLIPDROP_API_KEY`
environment variable (`""` models an unset/empty key, which Python's
`if not api_key` treats as missing), the `os.path.exists` oracle, and
the outcome the network would produce if called. -/
structure ClipEnv where
  apiKey : String
  fileExists : String → Bool
  post : HttpOutcome

/-- The value-level content of the JSON string `remove_background`
returns: a dict with key `processed_image_path` on success or with key
`error` on failure. -/
inductive BgResult where
  | ok (processedPath : String)
  | err (msg : String)
  deriving DecidableEq

/-- The user-facing message for a 401/403 from the background-removal
capability (`app.py` line 68). -/
def clipInvalidKeyMsg : String :=
  "Clipdrop API Error: Invalid API Key. Please re-copy the key from the official website and paste it in the sidebar."

/-- `app.py` `remove_background` (lines 38-71).  The second component
records whether `requests.post` was reached (a network call was made). -/
def remove_background (env : ClipEnv) (imagePath : String) : BgResult × Bool :=
  if env.apiKey = "" then
    (.err "Clipdrop API Key is missing. Please add it in the sidebar.", false)
  else if env.fileExists imagePath = false then
    (.err ("The file path '" ++ imagePath ++ "' does not exist."), false)
  else
    match env.post with
    | .exn e =>
      (.err ("An unexpected error occurred during background removal: " ++ e), true)
    | .resp status text =>
      if 400 ≤ status ∧ status < 600 then
        if status = 401 ∨ status = 403 then
          (.err clipInvalidKeyMsg, true)
        else
          (.err ("Clipdrop API Error: " ++ toString status ++ " - " ++ text), true)
      else
        (.ok ("temp_uploads/" ++ ("processed_" ++ basename imagePath)), true)

/-! ### `app.py`: content stage (`generate_creative_content`) -/

/-- Outcome of the hosted language-model invocation: the returned
content string, or a raised exception with its message. -/
inductive LlmOutcome where
  | ok (content : String)
  | exn (msg : String)

/-- `app.py` `generate_creative_content` (lines 73-98): on success the
LLM content is stripped and the code-fence markers removed, and the
resulting string is returned unchanged (it is NOT parsed or validated
here); on exception a JSON error object is returned. -/
def generate_creative_content (llm : LlmOutcome) : String :=
  match llm with
  | .ok content =>
    pyReplace (pyReplace (pyStrip content) "```json" "") "```" ""
  | .exn e =>
    json_dumps (.dict [("error", .str ("Error generating creative content: " ++ e))])

/-! ### `app.py`: finalization (`mock_url`, line 224) -/

/-- `app.py` line 224: the mock publish URL
`f"https://kalasahayk.com/gallery/artisan123/product_{str(hash(artisan_note))[:6]}"`.
`pyHash` models Python's built-in `hash` on strings for the current
process (its value is fixed within one process run). -/
def mock_url (pyHash : String → Int) (artisanNote : String) : String :=
  "https://kalasahayk.com/gallery/artisan123/product_" ++ strTake (toString (pyHash artisanNote)) 6

/-! ### `app.py`: orchestration in `main` (lines 193-231) -/

/-- The environment of one run of the orchestration block in `main`:
the saved upload path, the photo-stage environment, the LLM outcome,
the `json.loads` oracle used on the content string, and the process's
string hash. -/
structure OrchEnv where
  originalImagePath : String
  clip : ClipEnv
  llm : LlmOutcome
  jsonLoads : String → Except String PyVal
  pyHash : String → Int

/-- What the `try` block in `main` leaves behind: the `final_results`
dict, and the message of the exception caught by the outer handler at
line 229, if one was raised. -/
structure OrchOutcome where
  finalResults : List (String × PyVal)
  critical : Option String

/-- `app.py` `main`, lines 198-231.  Stage 1 parses the photo tool's
JSON (always the tool's own `json.dumps` of a one-key dict, so it is
folded at the value level); on error the original image path is
substituted and the error recorded.  Stage 2 parses the content string
with `json.loads`; a parse exception is caught only by the outer
handler (`critical`), skipping the fallback and the mock URL.  For the
parsed value, line 216's `"error" in content_result` is a key test on a
dict, a membership test on a list, a substring test on a string — and
raises `TypeError` on a number, boolean or null; when it is falsy,
line 221's `final_results.update(content_result)` merges a dict
directly, accepts a list whose elements unpack into key/value pairs
(modeled by `pyUpdatePairs`; accepted pairs with non-string keys are
not representable here and are folded into the raise branch), accepts
only the empty string among strings, and raises otherwise.  Exceptions
land in `critical` with `final_results` still holding the photo-stage
record. -/
def orchestrate (env : OrchEnv) (artisanNote : String) : OrchOutcome :=
  let bg := (remove_background env.clip env.originalImagePath).1
  let r1 : List (String × PyVal) :=
    match bg with
    | .ok p => [("processed_image_path", .str p)]
    | .err e => [("processed_image_path", .str env.originalImagePath),
                 ("error_bg_removal", .str e)]
  let contentFallback : List (String × PyVal) :=
    [("description", .str "N/A"), ("hashtags", .list []), ("price", .int 0)]
  let finish : List (String × PyVal) → OrchOutcome := fun r2 =>
    { finalResults := updateD r2 [("mock_url", .str (mock_url env.pyHash artisanNote))]
      critical := Option.none }
  match env.jsonLoads (generate_creative_content env.llm) with
  | .error e => { finalResults := r1, critical := some e }
  | .ok (.dict kvs) =>
    if hasKey kvs "error" then finish (updateD r1 contentFallback)
    else finish (updateD r1 kvs)
  | .ok (.list xs) =>
    if listHasErrorElem xs then finish (updateD r1 contentFallback)
    else
      match pyUpdatePairs xs with
      | some ps => finish (updateD r1 ps)
      | Option.none =>
        { finalResults := r1,
          critical := some "cannot convert dictionary update sequence element to a sequence" }
  | .ok (.str s) =>
    if containsSub "error" s then finish (updateD r1 contentFallback)
    else if s = "" then finish r1
    else
      { finalResults := r1,
        critical := some "dictionary update sequence element 0 has length 1; 2 is required" }
  | .ok v =>
    { finalResults := r1,
      critical := some ("argument of type '" ++ pyTypeName v ++ "' is not iterable") }

/-! ### `app.py`: price display (`display_results`, lines 120-131) -/

/-- The pricing block rendered by `display_results`: which price is the
primary metric, and whether an AI suggestion is shown as a secondary
note next to a user price. -/
inductive PricingDisplay where
  | userPrimary (user : ℚ) (aiSecondary : Option PyVal)
  | aiPrimary (ai : PyVal)
  | notAvailable

/-- Python `isinstance(v, (int, float))` on the modeled values.  Note
that Python's `bool` is a subclass of `int`, so booleans pass the
check. -/
def pyIsNumeric : Option PyVal → Bool
  | some (.int _) => true
  | some (.bool _) => true
  | _ => false

/-- `app.py` `display_results`, pricing column (lines 120-131):
`ai_price = results.get('price')`; a positive user price is the primary
metric with the AI price as a secondary note when numeric; otherwise a
numeric AI price is primary; otherwise "N/A". -/
def display_results_pricing (results : List (String × PyVal)) (userPrice : ℚ) : PricingDisplay :=
  let ai := lookupStr results "price"
  if 0 < userPrice then
    .userPrimary userPrice (if pyIsNumeric ai then ai else Option.none)
  else
    match ai with
    | some (.int n) => .aiPrimary (.int n)
    | some (.bool b) => .aiPrimary (.bool b)
    | _ => .notAvailable

/-! ### `crew_mvp.py`: consolidation and mock publish steps -/

/-- Escaping of one character inside a Python single-quoted `repr`. -/
def pyReprEscapeChar (c : Char) : List Char :=
  if c = '\'' then ['\\', '\'']
  else if c = '\\' then ['\\', '\\']
  else if c = '\n' then ['\\', 'n']
  else if c = '\t' then ['\\', 't']
  else if c = '\r' then ['\\', 'r']
  else [c]

mutual

/-- Python `repr` on the modeled values (single-quoted strings,
bracketed containers), as used when containers are formatted. -/
def pyRepr : PyVal → String
  | .none => "None"
  | .bool b => if b then "True" else "False"
  | .int n => toString n
  | .str s => ⟨'\'' :: (s.data.map pyReprEscapeChar).flatten ++ ['\'']⟩
  | .list xs => "[" ++ String.intercalate ", " (pyReprList xs) ++ "]"
  | .tuple xs =>
    if xs.length = 1 then
      "(" ++ String.intercalate ", " (pyReprList xs) ++ ",)"
    else
      "(" ++ String.intercalate ", " (pyReprList xs) ++ ")"
  | .dict kvs => "\x7b" ++ String.intercalate ", " (pyReprKvs kvs) ++ "\x7d"

/-- `pyRepr` on each element of a list. -/
def pyReprList : List PyVal → List String
  | [] => []
  | v :: vs => pyRepr v :: pyReprList vs

/-- `pyRepr` on each entry of a dict. -/
def pyReprKvs : List (String × PyVal) → List String
  | [] => []
  | (k, v) :: rest =>
    (("\'" ++ k ++ "\'") ++ ": " ++ pyRepr v) :: pyReprKvs rest

end

/-- Python `str(v)` as interpolated by an f-string: strings are taken
verbatim, other values print as their `repr`. -/
def pyStr : PyVal → String
  | .str s => s
  | v => pyRepr v

/-- The required-key list of `consolidate_data` (`crew_mvp.py` line 71). -/
def required_keys : List String :=
  ["artisan_id", "enhanced_image_path", "description", "hashtags", "price"]

/-- The error string `consolidate_data` returns when a required key is
absent: the f-string interpolates the whole `required_keys` list
(`crew_mvp.py` line 73). -/
def missingKeysMsg : String :=
  "Error: The parsed dictionary is missing one of the required keys: ['artisan_id', 'enhanced_image_path', 'description', 'hashtags', 'price']"

/-- `crew_mvp.py` `consolidate_data` (lines 55-75).  The argument is
the outcome of `ast.literal_eval(data_string)` (the standard-library
literal parser, external to this repository): an exception message, or
the parsed value.  A parsed non-dict raises `TypeError("Input is not a
dictionary.")`, caught by the same handler as parse errors. -/
def consolidate_data (parsed : Except String PyVal) : String :=
  match parsed with
  | .error e =>
    "Error: Input is not a valid Python dictionary string. Details: " ++ e
  | .ok (.dict kvs) =>
    if required_keys.all (fun k => hasKey kvs k) then
      json_dumps (.dict kvs)
    else
      missingKeysMsg
  | .ok _ =>
    "Error: Input is not a valid Python dictionary string. Details: Input is not a dictionary."

/-- Python `hash` on the modeled values: strings hash through the
process's string hash; small integers hash to themselves; booleans hash
like the integers 0 and 1; `None`'s process-dependent hash is modeled
as 0; lists and dicts are unhashable and raise `TypeError` (tuple
hashing is not modeled — no claim exercises it). -/
def pyHashVal (pyHash : String → Int) : PyVal → Option Int
  | .str s => some (pyHash s)
  | .int n => some n
  | .bool b => some (if b then 1 else 0)
  | .none => some 0
  | _ => Option.none

/-- `crew_mvp.py` `publish_to_web_gallery` (lines 77-89).  The argument
is the outcome of `json.loads(final_product_json)`.  Inside the `try`:
`data.get` on a non-dict raises `AttributeError`; `hash` on an
unhashable description raises `TypeError`; both are caught and reported
as `"Error publishing: ..."`.  Otherwise the success string embeds the
artisan id and `hash(description) % 10000`. -/
def publish_to_web_gallery (pyHash : String → Int) (parsed : Except String PyVal) : String :=
  match parsed with
  | .error e => "Error publishing: " ++ e
  | .ok (.dict kvs) =>
    let artisanId := (lookupStr kvs "artisan_id").getD (.str "unknown_artisan")
    match pyHashVal pyHash ((lookupStr kvs "description").getD (.str "")) with
    | some hv =>
      "SUCCESS: Product live at https://www.kalasahayk.com/gallery/" ++
        pyStr artisanId ++ "/product" ++ toString (hv % 10000)
    | Option.none => "Error publishing: unhashable type: 'list'"
  | .ok v =>
    "Error publishing: '" ++ pyTypeName v ++ "' object has no attribute 'get'"

/-! ### Helper lemmas about dict lookups -/

theorem lookupStr_append (a b : List (String × PyVal)) (k : String) :
    lookupStr (a ++ b) k =
      match lookupStr a k with
      | some v => some v
      | Option.none => lookupStr b k := by
  induction a with
  | nil => simp [lookupStr]
  | cons p rest ih =>
    obtain ⟨k1, v1⟩ := p
    by_cases h : k1 = k
    · simp [lookupStr, h]
    · simp [lookupStr, h, ih]

theorem lookupStr_eq_none_of_not_hasKey (d : List (String × PyVal)) (k : String)
    (h : hasKey d k = false) : lookupStr d k = Option.none := by
  induction d with
  | nil => rfl
  | cons p rest ih =>
    obtain ⟨k1, v1⟩ := p
    simp only [hasKey, List.any_cons, Bool.or_eq_false_iff, decide_eq_false_iff_not] at h
    simp [lookupStr, h.1, ih h.2]

theorem lookupStr_isSome_of_hasKey (d : List (String × PyVal)) (k : String)
    (h : hasKey d k = true) : ∃ v, lookupStr d k = some v := by
  induction d with
  | nil => simp [hasKey] at h
  | cons p rest ih =>
    obtain ⟨k1, v1⟩ := p
    by_cases hq : k1 = k
    · exact ⟨v1, by simp [lookupStr, hq]⟩
    · simp only [hasKey, List.any_cons, Bool.or_eq_true, decide_eq_true_eq] at h
      rcases h with h | h
      · exact absurd h hq
      · obtain ⟨v, hv⟩ := ih h
        exact ⟨v, by simp [lookupStr, hq, hv]⟩

theorem lookupStr_updMap (d u : List (String × PyVal)) (k : String) :
    lookupStr (d.map (fun p =>
      match lookupStr u p.1 with
      | some v => (p.1, v)
      | Option.none => p)) k =
      match lookupStr d k with
      | some w =>
        match lookupStr u k with
        | some v => some v
        | Option.none => some w
      | Option.none => Option.none := by
  induction d with
  | nil => simp [lookupStr]
  | cons p rest ih =>
    obtain ⟨k1, w1⟩ := p
    by_cases h : k1 = k
    · subst h
      cases hu : lookupStr u k1 <;> simp [lookupStr, hu]
    · cases hu : lookupStr u k1 <;> simp [lookupStr, h, hu, ih]

theorem lookupStr_filter_of_not_hasKey (d u : List (String × PyVal)) (k : String)
    (h : hasKey d k = false) :
    lookupStr (u.filter (fun p => !(hasKey d p.1))) k = lookupStr u k := by
  induction u with
  | nil => rfl
  | cons q rest ih =>
    obtain ⟨kq, vq⟩ := q
    by_cases hq : kq = k
    · subst hq
      simp [List.filter_cons, h, lookupStr, ih]
    · cases hd : hasKey d kq <;> simp [List.filter_cons, hd, lookupStr, hq, ih]

theorem lookupStr_filter_of_hasKey (d u : List (String × PyVal)) (k : String)
    (h : hasKey d k = true) :
    lookupStr (u.filter (fun p => !(hasKey d p.1))) k = Option.none := by
  induction u with
  | nil => rfl
  | cons q rest ih =>
    obtain ⟨kq, vq⟩ := q
    by_cases hq : kq = k
    · subst hq
      simp [List.filter_cons, h, ih]
    · cases hd : hasKey d kq <;> simp [List.filter_cons, hd, lookupStr, hq, ih]

theorem lookupStr_updateD (d u : List (String × PyVal)) (k : String) :
    lookupStr (updateD d u) k =
      match lookupStr u k with
      | some v => some v
      | Option.none => lookupStr d k := by
  unfold updateD
  rw [lookupStr_append, lookupStr_updMap]
  cases hd : hasKey d k
  · rw [lookupStr_eq_none_of_not_hasKey d k hd, lookupStr_filter_of_not_hasKey d u k hd]
    cases lookupStr u k <;> rfl
  · obtain ⟨w, hw⟩ := lookupStr_isSome_of_hasKey d k hd
    rw [hw, lookupStr_filter_of_hasKey d u k hd]
    cases lookupStr u k <;> rfl

/-! ### C4: nonexistent image path -/

/-- C4: for every image path that does not reference an existing file,
`remove_background` returns a Failed (error) result and performs no
network call; when an API key is configured, the message is the
descriptive one naming the path (with no key configured the key-missing
message is returned instead — still Failed, still no network call). -/
theorem C4_remove_background_missing_file (env : ClipEnv) (p : String)
    (hf : env.fileExists p = false) :
    (∃ m, (remove_background env p).1 = .err m) ∧
    (remove_background env p).2 = false ∧
    (env.apiKey ≠ "" →
      (remove_background env p).1 = .err ("The file path '" ++ p ++ "' does not exist.")) := by
  by_cases hk : env.apiKey = ""
  · have hres : remove_background env p =
        (.err "Clipdrop API Key is missing. Please add it in the sidebar.", false) := by
      simp [remove_background, hk]
    exact ⟨⟨"Clipdrop API Key is missing. Please add it in the sidebar.", by rw [hres]⟩,
      by rw [hres], fun hcontra => absurd hk hcontra⟩
  · have hres : remove_background env p =
        (.err ("The file path '" ++ p ++ "' does not exist."), false) := by
      simp [remove_background, hk, hf]
    exact ⟨⟨"The file path '" ++ p ++ "' does not exist.", by rw [hres]⟩,
      by rw [hres], fun _ => by rw [hres]⟩

/-- The concrete environment of the C4 witness: a key is configured and
no file exists. -/
def c4Env : ClipEnv :=
  { apiKey := "k", fileExists := fun _ => false, post := .resp 200 "" }

/-- Witness for C4 at a concrete nonexistent path. -/
theorem C4_witness :
    (remove_background c4Env "ghost.png").1 =
      .err "The file path 'ghost.png' does not exist." ∧
    (remove_background c4Env "ghost.png").2 = false := by
  have h := C4_remove_background_missing_file c4Env "ghost.png" rfl
  exact ⟨h.2.2 (by decide), h.2.1⟩

/-! ### C5: HTTP 401 from the background-removal capability -/

/-- C6: finalization is deterministic — with the process's string hash
fixed, two finalization calls on identical note texts produce the same
publish URL; the step is a total pure string formatting (no external
call is modeled, and no failure outcome exists in its type). -/
theorem C6_finalize_deterministic (pyHash : String → Int) (n1 n2 : String) (h : n1 = n2) :
    mock_url pyHash n1 = mock_url pyHash n2 ∧
    mock_url pyHash n1 =
      "https://kalasahayk.com/gallery/artisan123/product_" ++
        strTake (toString (pyHash n1)) 6 := by
  subst h
  exact ⟨rfl, rfl⟩

/-- Witness for C6 at a concrete hash function and note. -/
theorem C6_witness :
    mock_url (fun s => (s.length : Int)) "hand-painted terracotta necklace" =
      mock_url (fun s => (s.length : Int)) "hand-painted terracotta necklace" :=
  (C6_finalize_deterministic (fun s => (s.length : Int))
    "hand-painted terracotta necklace" "hand-painted terracotta necklace" rfl).1

/-! ### C7: the publish-URL suffix -/

/-- C7 counterexample: the code truncates `str(hash(note))` to at most 6
characters but never pads it.  CPython fixes `hash("") = 0` in every
process, so for the empty note the derived suffix is the single
character `"0"` — not a 6-character suffix as the claim states. -/
theorem C7_counterexample :
    mock_url (fun _ => 0) "" =
      "https://kalasahayk.com/gallery/artisan123/product_" ++ "0" ∧
    (strTake (toString ((0 : Int))) 6).length = 1 ∧ ¬ ((1 : Nat) = 6) :=
  ⟨rfl, rfl, by decide⟩

/-- C7 as amended: the publish URL is the fixed-format prefix followed by
the decimal string of the note's hash truncated to at most 6 characters;
the suffix has exactly 6 characters whenever that decimal string has at
least 6. -/
theorem C7_amended (pyHash : String → Int) (note : String) :
    mock_url pyHash note =
      "https://kalasahayk.com/gallery/artisan123/product_" ++
        strTake (toString (pyHash note)) 6 ∧
    (strTake (toString (pyHash note)) 6).length ≤ 6 ∧
    (6 ≤ (toString (pyHash note)).length →
      (strTake (toString (pyHash note)) 6).length = 6) := by
  refine ⟨rfl, ?_, ?_⟩
  · have he : (strTake (toString (pyHash note)) 6).length =
        ((toString (pyHash note)).data.take 6).length := rfl
    rw [he, List.length_take]
    omega
  · intro h
    have he : (strTake (toString (pyHash note)) 6).length =
        ((toString (pyHash note)).data.take 6).length := rfl
    have hl : (toString (pyHash note)).length = (toString (pyHash note)).data.length := rfl
    rw [he, List.length_take]
    rw [hl] at h
    omega

/-- Witness for C7 as amended, at a concrete 10-digit negative hash. -/
theorem C7_witness :
    (strTake (toString ((fun (_ : String) => (-1234567890 : Int)) "note")) 6).length = 6 :=
  (C7_amended (fun _ => -1234567890) "note").2.2 (by decide)

/-! ### C1: malformed JSON from the text-generation capability -/

/-- The concrete run for C1: the photo stage succeeds, the language
model returns the non-JSON string `"not json"`, and `json.loads` on it
raises `Expecting value: line 1 column 1 (char 0)` (the oracle is
consulted only on that one string in this run). -/
def c1Env : OrchEnv :=
  { originalImagePath := "temp_uploads/pic.png"
    clip := { apiKey := "k", fileExists := fun _ => true, post := .resp 200 "bytes" }
    llm := .ok "not json"
    jsonLoads := fun _ => .error "Expecting value: line 1 column 1 (char 0)"
    pyHash := fun _ => 0 }

/-- C1 counterexample: when the capability returns the non-JSON string
`"not json"`, `generate_creative_content` passes it through unchanged
(no Failed result), and the orchestrator's `json.loads` raises out of
the content stage into the outer handler — the claim's "returns a
Failed ContentResult and never raises" is false at this input. -/
theorem C1_counterexample :
    generate_creative_content (.ok "not json") = "not json" ∧
    (orchestrate c1Env "a note").critical =
      some "Expecting value: line 1 column 1 (char 0)" ∧
    hasKey (orchestrate c1Env "a note").finalResults "description" = false := by
  refine ⟨by decide, rfl, by decide⟩

/-- C1 as amended: a string returned by the capability is only cleaned
(strip + code-fence removal) and returned, never validated; if
`json.loads` fails on it, the exception escapes the content stage to the
orchestrator's outer handler, so no Failed ContentResult is produced, no
content fallback is applied and finalization is skipped.  (Only an
exception raised by the capability itself is folded into an error-JSON
result.) -/
theorem C1_amended (env : OrchEnv) (s e note : String)
    (hllm : env.llm = .ok s)
    (hparse : env.jsonLoads (generate_creative_content env.llm) = .error e) :
    generate_creative_content env.llm =
      pyReplace (pyReplace (pyStrip s) "```json" "") "```" "" ∧
    (orchestrate env note).critical = some e ∧
    hasKey (orchestrate env note).finalResults "description" = false ∧
    hasKey (orchestrate env note).finalResults "mock_url" = false ∧
    (∀ e2, generate_creative_content (.exn e2) =
      json_dumps (.dict [("error", .str ("Error generating creative content: " ++ e2))])) := by
  refine ⟨by rw [hllm]; rfl, ?_, ?_, ?_, fun e2 => rfl⟩
  · simp [orchestrate, hparse]
  · cases hbg : (remove_background env.clip env.originalImagePath).1 <;>
      simp [orchestrate, hparse, hbg, hasKey]
  · cases hbg : (remove_background env.clip env.originalImagePath).1 <;>
      simp [orchestrate, hparse, hbg, hasKey]

/-- Witness for C1 as amended, at the concrete `"not json"` run. -/
theorem C1_witness :
    hasKey (orchestrate c1Env "a note").finalResults "mock_url" = false :=
  (C1_amended c1Env "not json" "Expecting value: line 1 column 1 (char 0)" "a note"
    rfl rfl).2.2.2.1

/-! ### C2: per-stage fallbacks keep the pipeline alive -/

/-- The concrete run for C2's counterexample: the photo stage succeeds
and the LLM call raises, so its folded error JSON is what `json.loads`
receives (and parses back to the error dict). -/
def c2Env : OrchEnv :=
  { originalImagePath := "temp_uploads/pic.png"
    clip := { apiKey := "k", fileExists := fun _ => true, post := .resp 200 "bytes" }
    llm := .exn "quota exceeded"
    jsonLoads := fun s =>
      if s = json_dumps (.dict
          [("error", .str "Error generating creative content: quota exceeded")]) then
        .ok (.dict [("error", .str "Error generating creative content: quota exceeded")])
      else
        .error "Expecting value: line 1 column 1 (char 0)"
    pyHash := fun _ => 12345678 }

/-- C2 counterexample: when the content stage fails, the substituted
description is the placeholder `"N/A"`, not the empty string the claim
documents. -/
theorem C2_counterexample :
    lookupStr (orchestrate c2Env "a note").finalResults "description" =
      some (.str "N/A") ∧
    "N/A" ≠ "" := by
  exact ⟨rfl, by decide⟩

/-- C2 as amended: whenever the parsed content is a dict (so no
exception escapes), the orchestrator never aborts, and each failed
stage is replaced by its fallback while the other stage's output is
kept: a failed photo stage contributes the original image plus the
recorded error; a successful one contributes its processed path; a
failed content stage (an `error` key) contributes the placeholder
description `"N/A"` (not the empty string), empty hashtags and zero
price; a successful one contributes its own description/hashtags/price
values; and the mock publish URL is always appended — so the record is
complete whenever each stage either fails or supplies its documented
fields.  The `hpip`/`hebr` hypotheses exclude the pathological case of
the language model's JSON itself carrying the orchestrator's
photo-stage keys, which `final_results.update` would let override
them. -/
theorem C2_amended (env : OrchEnv) (note : String) (kvs : List (String × PyVal))
    (hc : env.jsonLoads (generate_creative_content env.llm) = .ok (.dict kvs))
    (hpip : hasKey kvs "processed_image_path" = false)
    (hebr : hasKey kvs "error_bg_removal" = false) :
    (orchestrate env note).critical = Option.none ∧
    (∀ eb, (remove_background env.clip env.originalImagePath).1 = .err eb →
      lookupStr (orchestrate env note).finalResults "processed_image_path" =
        some (.str env.originalImagePath) ∧
      lookupStr (orchestrate env note).finalResults "error_bg_removal" =
        some (.str eb)) ∧
    (∀ p, (remove_background env.clip env.originalImagePath).1 = .ok p →
      lookupStr (orchestrate env note).finalResults "processed_image_path" =
        some (.str p)) ∧
    (hasKey kvs "error" = true →
      lookupStr (orchestrate env note).finalResults "description" = some (.str "N/A") ∧
      lookupStr (orchestrate env note).finalResults "hashtags" = some (.list []) ∧
      lookupStr (orchestrate env note).finalResults "price" = some (.int 0)) ∧
    (hasKey kvs "error" = false → ∀ k v, k ∈ ["description", "hashtags", "price"] →
      lookupStr kvs k = some v →
      lookupStr (orchestrate env note).finalResults k = some v) ∧
    lookupStr (orchestrate env note).finalResults "mock_url" =
      some (.str (mock_url env.pyHash note)) := by
  have hkpip := lookupStr_eq_none_of_not_hasKey kvs "processed_image_path" hpip
  have hkebr := lookupStr_eq_none_of_not_hasKey kvs "error_bg_removal" hebr
  cases herr : hasKey kvs "error"
  · cases hbg : (remove_background env.clip env.originalImagePath).1 with
    | ok p0 =>
      have hres : orchestrate env note =
          { finalResults := updateD (updateD [("processed_image_path", .str p0)] kvs)
              [("mock_url", .str (mock_url env.pyHash note))]
            critical := Option.none } := by
        simp [orchestrate, hc, herr, hbg]
      refine ⟨by rw [hres], ?_, ?_, ?_, ?_, ?_⟩
      · intro eb heb
        simp at heb
      · intro p hp
        injection hp with hp'
        subst hp'
        simp [hres, lookupStr_updateD, lookupStr, hkpip]
      · intro h
        simp at h
      · intro _ k v hk hv
        simp only [List.mem_cons, List.not_mem_nil, or_false] at hk
        rcases hk with rfl | rfl | rfl <;>
          rw [hres, lookupStr_updateD, lookupStr_updateD] <;>
          simp [lookupStr, hv]
      · simp [hres, lookupStr_updateD, lookupStr]
    | err eb0 =>
      have hres : orchestrate env note =
          { finalResults := updateD (updateD
              [("processed_image_path", .str env.originalImagePath),
               ("error_bg_removal", .str eb0)] kvs)
              [("mock_url", .str (mock_url env.pyHash note))]
            critical := Option.none } := by
        simp [orchestrate, hc, herr, hbg]
      refine ⟨by rw [hres], ?_, ?_, ?_, ?_, ?_⟩
      · intro eb heb
        injection heb with heb'
        subst heb'
        constructor <;> simp [hres, lookupStr_updateD, lookupStr, hkpip, hkebr]
      · intro p hp
        simp at hp
      · intro h
        simp at h
      · intro _ k v hk hv
        simp only [List.mem_cons, List.not_mem_nil, or_false] at hk
        rcases hk with rfl | rfl | rfl <;>
          rw [hres, lookupStr_updateD, lookupStr_updateD] <;>
          simp [lookupStr, hv]
      · simp [hres, lookupStr_updateD, lookupStr]
  · cases hbg : (remove_background env.clip env.originalImagePath).1 with
    | ok p0 =>
      have hres : orchestrate env note =
          { finalResults := updateD (updateD [("processed_image_path", .str p0)]
              [("description", .str "N/A"), ("hashtags", .list []), ("price", .int 0)])
              [("mock_url", .str (mock_url env.pyHash note))]
            critical := Option.none } := by
        simp [orchestrate, hc, herr, hbg]
      refine ⟨by rw [hres], ?_, ?_, ?_, ?_, ?_⟩
      · intro eb heb
        simp at heb
      · intro p hp
        injection hp with hp'
        subst hp'
        simp [hres, lookupStr_updateD, lookupStr]
      · intro _
        refine ⟨?_, ?_, ?_⟩ <;> simp [hres, lookupStr_updateD, lookupStr]
      · intro h
        simp at h
      · simp [hres, lookupStr_updateD, lookupStr]
    | err eb0 =>
      have hres : orchestrate env note =
          { finalResults := updateD (updateD
              [("processed_image_path", .str env.originalImagePath),
               ("error_bg_removal", .str eb0)]
              [("description", .str "N/A"), ("hashtags", .list []), ("price", .int 0)])
              [("mock_url", .str (mock_url env.pyHash note))]
            critical := Option.none } := by
        simp [orchestrate, hc, herr, hbg]
      refine ⟨by rw [hres], ?_, ?_, ?_, ?_, ?_⟩
      · intro eb heb
        injection heb with heb'
        subst heb'
        constructor <;> simp [hres, lookupStr_updateD, lookupStr]
      · intro p hp
        simp at hp
      · intro _
        refine ⟨?_, ?_, ?_⟩ <;> simp [hres, lookupStr_updateD, lookupStr]
      · intro h
        simp at h
      · simp [hres, lookupStr_updateD, lookupStr]

/-- The concrete run for C2's witness: the photo stage raises a network
timeout and the LLM call raises, so both fallbacks apply. -/
def c2wEnv : OrchEnv :=
  { originalImagePath := "temp_uploads/pic.png"
    clip := { apiKey := "k", fileExists := fun _ => true, post := .exn "timeout" }
    llm := .exn "quota exceeded"
    jsonLoads := fun s =>
      if s = json_dumps (.dict
          [("error", .str "Error generating creative content: quota exceeded")]) then
        .ok (.dict [("error", .str "Error generating creative content: quota exceeded")])
      else
        .error "Expecting value: line 1 column 1 (char 0)"
    pyHash := fun _ => 12345678 }

/-- Witness for C2 as amended, at the concrete double-failure run. -/
theorem C2_witness :
    lookupStr (orchestrate c2wEnv "a note").finalResults "price" = some (.int 0) ∧
    lookupStr (orchestrate c2wEnv "a note").finalResults "processed_image_path" =
      some (.str "temp_uploads/pic.png") := by
  have h := C2_amended c2wEnv "a note"
    [("error", .str "Error generating creative content: quota exceeded")]
    rfl (by decide) (by decide)
  exact ⟨(h.2.2.2.1 (by decide)).2.2,
    (h.2.1 "An unexpected error occurred during background removal: timeout" rfl).1⟩

/-! ### C3: price display precedence -/

theorem lookupStr_filter_self (results : List (String × PyVal)) (k : String) :
    lookupStr (results.filter (fun p => p.1 != k)) k = Option.none := by
  induction results with
  | nil => rfl
  | cons p rest ih =>
    obtain ⟨k1, v1⟩ := p
    by_cases h : k1 = k
    · subst h
      simp [List.filter_cons, ih]
    · simp [List.filter_cons, h, lookupStr, ih]

/-- C3: price precedence in `display_results`.  A positive user price is
the primary displayed price, with the AI price attached as a secondary
note exactly when it is numeric; with a zero user price a numeric AI
price is primary; with a zero user price and no numeric AI price the
display is "N/A" (not available); and a non-numeric AI price value makes
the display identical to the one with no price entry at all (treated as
absent, not as a failure). -/
theorem C3_price_precedence (results : List (String × PyVal)) (up : ℚ) :
    (0 < up →
      display_results_pricing results up =
        .userPrimary up
          (if pyIsNumeric (lookupStr results "price") then lookupStr results "price"
           else Option.none)) ∧
    (up = 0 → pyIsNumeric (lookupStr results "price") = true →
      ∃ v, lookupStr results "price" = some v ∧
        display_results_pricing results up = .aiPrimary v) ∧
    (up = 0 → pyIsNumeric (lookupStr results "price") = false →
      display_results_pricing results up = .notAvailable) ∧
    (pyIsNumeric (lookupStr results "price") = false →
      display_results_pricing results up =
        display_results_pricing (results.filter (fun p => p.1 != "price")) up) := by
  refine ⟨?_, ?_, ?_, ?_⟩
  · intro hup
    simp [display_results_pricing, hup]
  · intro hup hnum
    subst hup
    cases hai : lookupStr results "price" with
    | none => rw [hai] at hnum; simp [pyIsNumeric] at hnum
    | some v =>
      cases v with
      | int n => exact ⟨.int n, rfl, by simp [display_results_pricing, hai]⟩
      | bool b => exact ⟨.bool b, rfl, by simp [display_results_pricing, hai]⟩
      | none => rw [hai] at hnum; simp [pyIsNumeric] at hnum
      | str s => rw [hai] at hnum; simp [pyIsNumeric] at hnum
      | list xs => rw [hai] at hnum; simp [pyIsNumeric] at hnum
      | tuple xs => rw [hai] at hnum; simp [pyIsNumeric] at hnum
      | dict kvs => rw [hai] at hnum; simp [pyIsNumeric] at hnum
  · intro hup hnum
    subst hup
    cases hai : lookupStr results "price" with
    | none => simp [display_results_pricing, hai]
    | some v =>
      rw [hai] at hnum
      cases v with
      | int n => simp [pyIsNumeric] at hnum
      | bool b => simp [pyIsNumeric] at hnum
      | none => simp [display_results_pricing, hai]
      | str s => simp [display_results_pricing, hai]
      | list xs => simp [display_results_pricing, hai]
      | tuple xs => simp [display_results_pricing, hai]
      | dict kvs => simp [display_results_pricing, hai]
  · intro hnum
    have hfil := lookupStr_filter_self results "price"
    by_cases hup : 0 < up
    · simp [display_results_pricing, hup, hnum, hfil,
        show pyIsNumeric Option.none = false from rfl]
    · cases hai : lookupStr results "price" with
      | none => simp [display_results_pricing, hup, hai, hfil]
      | some v =>
        rw [hai] at hnum
        cases v with
        | int n => simp [pyIsNumeric] at hnum
        | bool b => simp [pyIsNumeric] at hnum
        | none => simp [display_results_pricing, hup, hai, hfil]
        | str s => simp [display_results_pricing, hup, hai, hfil]
        | list xs => simp [display_results_pricing, hup, hai, hfil]
        | tuple xs => simp [display_results_pricing, hup, hai, hfil]
        | dict kvs => simp [display_results_pricing, hup, hai, hfil]

/-- Witness for C3: zero user price and a numeric AI price make the AI
price the primary display. -/
theorem C3_witness :
    display_results_pricing [("price", PyVal.int 49)] 0 = .aiPrimary (.int 49) := by
  obtain ⟨v, hv, hd⟩ := (C3_price_precedence [("price", PyVal.int 49)] 0).2.1 rfl (by decide)
  rw [hd]
  cases hv
  rfl

/-! ### C8: consolidation requires the five fields -/

/-- C8: if the parsed record misses one of the five required fields,
`consolidate_data` returns the fixed error string — which names every
required key, hence in particular the missing one — and a JSON
(serialization) output is produced exactly when the all-keys check
passes; the error string starts with `Error` while every dict
serialization starts with a brace. -/
theorem C8_consolidate_missing_key (kvs : List (String × PyVal)) (k : String)
    (hk : k ∈ required_keys) (hmiss : hasKey kvs k = false) :
    consolidate_data (.ok (.dict kvs)) = missingKeysMsg ∧
    containsSub k missingKeysMsg = true ∧
    (∀ kvs2, required_keys.all (fun k2 => hasKey kvs2 k2) = true →
      consolidate_data (.ok (.dict kvs2)) = json_dumps (.dict kvs2)) ∧
    (∀ kvs2, required_keys.all (fun k2 => hasKey kvs2 k2) = false →
      consolidate_data (.ok (.dict kvs2)) = missingKeysMsg) ∧
    (∀ kvs2, strTake (json_dumps (.dict kvs2)) 1 = "\x7b") ∧
    strTake missingKeysMsg 1 = "E" := by
  have hall : required_keys.all (fun k2 => hasKey kvs k2) = false := by
    rw [List.all_eq_false]
    exact ⟨k, hk, by simp [hmiss]⟩
  refine ⟨by simp [consolidate_data, hall], ?_, ?_, ?_, ?_, rfl⟩
  · simp only [required_keys, List.mem_cons, List.not_mem_nil, or_false] at hk
    rcases hk with rfl | rfl | rfl | rfl | rfl <;> decide
  · intro kvs2 h2
    simp [consolidate_data, h2]
  · intro kvs2 h2
    simp [consolidate_data, h2]
  · intro kvs2
    have hd : json_dumps (.dict kvs2) =
        "\x7b" ++ String.intercalate ", " (json_dumpsKvs kvs2) ++ "\x7d" := by
      simp [json_dumps]
    rw [hd]
    rfl

/-- The C8 witness record: all required fields except `price`. -/
def c8Dict : List (String × PyVal) :=
  [("artisan_id", .str "artisan_lc8765"),
   ("enhanced_image_path", .str "processed_img.jpg"),
   ("description", .str "a craft"),
   ("hashtags", .list [.str "#Handmade"])]

/-- Witness for C8 at a record missing `price`. -/
theorem C8_witness :
    consolidate_data (.ok (.dict c8Dict)) = missingKeysMsg ∧
    containsSub "price" missingKeysMsg = true := by
  have h := C8_consolidate_missing_key c8Dict "price" (by decide) (by decide)
  exact ⟨h.1, h.2.1⟩

/-! ### C9: the mock publish step -/

/-- C9 counterexample: on an input string that is not valid JSON,
`publish_to_web_gallery` reports `Error publishing: ...`, not success —
so "for every input it always reports success" is false. -/
theorem C9_counterexample :
    publish_to_web_gallery (fun _ => 0)
        (.error "Expecting value: line 1 column 1 (char 0)") =
      "Error publishing: Expecting value: line 1 column 1 (char 0)" ∧
    ¬ strTake (publish_to_web_gallery (fun _ => 0)
        (.error "Expecting value: line 1 column 1 (char 0)")) 7 = "SUCCESS" := by
  exact ⟨rfl, by decide⟩

/-- C9 as amended: for every input that parses as a JSON object whose
description is a string, the mock publish step reports success with a
URL formatted from the artisan identifier (default `unknown_artisan`)
and `hash(description) % 10000`; a malformed input instead yields an
`Error publishing` string, and no persistence failure is modeled. -/
theorem C9_amended (pyHash : String → Int) (kvs : List (String × PyVal)) (d : String)
    (hd : lookupStr kvs "description" = some (.str d)) :
    publish_to_web_gallery pyHash (.ok (.dict kvs)) =
      "SUCCESS: Product live at https://www.kalasahayk.com/gallery/" ++
        pyStr ((lookupStr kvs "artisan_id").getD (.str "unknown_artisan")) ++
        "/product" ++ toString (pyHash d % 10000) ∧
    strTake (publish_to_web_gallery pyHash (.ok (.dict kvs))) 7 = "SUCCESS" ∧
    (∀ e, publish_to_web_gallery pyHash (.error e) = "Error publishing: " ++ e) := by
  have hres : publish_to_web_gallery pyHash (.ok (.dict kvs)) =
      "SUCCESS: Product live at https://www.kalasahayk.com/gallery/" ++
        pyStr ((lookupStr kvs "artisan_id").getD (.str "unknown_artisan")) ++
        "/product" ++ toString (pyHash d % 10000) := by
    simp [publish_to_web_gallery, hd, pyHashVal]
  refine ⟨hres, ?_, fun e => rfl⟩
  rw [hres]
  rfl

/-- The C9 witness record. -/
def c9Dict : List (String × PyVal) :=
  [("artisan_id", .str "artisan_lc8765"),
   ("enhanced_image_path", .str "processed_img.jpg"),
   ("description", .str "a craft"),
   ("hashtags", .list [.str "#Handmade"]),
   ("price", .int 82)]

/-- Witness for C9 as amended, at a concrete record and hash. -/
theorem C9_witness :
    publish_to_web_gallery (fun _ => 54321) (.ok (.dict c9Dict)) =
      "SUCCESS: Product live at https://www.kalasahayk.com/gallery/artisan_lc8765/product4321" := by
  have h := C9_amended (fun _ => 54321) c9Dict "a craft" rfl
  rw [h.1]
  rfl

/-! ### C10: round-trip through consolidation -/

mutual

theorem toJsonNorm_eq_of_tupleFree : ∀ (v : PyVal), tupleFree v = true → toJsonNorm v = v
  | .none, _ => rfl
  | .bool _, _ => rfl
  | .int _, _ => rfl
  | .str _, _ => rfl
  | .list xs, h => by
    have hxs : tupleFreeList xs = true := by simpa [tupleFree] using h
    simp [toJsonNorm, toJsonNormList_eq_of_tupleFree xs hxs]
  | .tuple xs, h => by simp [tupleFree] at h
  | .dict kvs, h => by
    have hkvs : tupleFreeKvs kvs = true := by simpa [tupleFree] using h
    simp [toJsonNorm, toJsonNormKvs_eq_of_tupleFree kvs hkvs]

theorem toJsonNormList_eq_of_tupleFree :
    ∀ (xs : List PyVal), tupleFreeList xs = true → toJsonNormList xs = xs
  | [], _ => rfl
  | v :: vs, h => by
    have h1 : tupleFree v = true ∧ tupleFreeList vs = true := by
      simpa [tupleFreeList, Bool.and_eq_true] using h
    simp [toJsonNormList, toJsonNorm_eq_of_tupleFree v h1.1,
      toJsonNormList_eq_of_tupleFree vs h1.2]

theorem toJsonNormKvs_eq_of_tupleFree :
    ∀ (kvs : List (String × PyVal)), tupleFreeKvs kvs = true → toJsonNormKvs kvs = kvs
  | [], _ => rfl
  | (k, v) :: rest, h => by
    have h1 : tupleFree v = true ∧ tupleFreeKvs rest = true := by
      simpa [tupleFreeKvs, Bool.and_eq_true] using h
    simp [toJsonNormKvs, toJsonNorm_eq_of_tupleFree v h1.1,
      toJsonNormKvs_eq_of_tupleFree rest h1.2]

end

/-- The C10 counterexample record: all five required keys present, but
the `hashtags` value is a (JSON-serializable) Python tuple. -/
def c10Dict : List (String × PyVal) :=
  [("artisan_id", .str "a1"),
   ("enhanced_image_path", .str "p.png"),
   ("description", .str "d"),
   ("hashtags", .tuple [.str "#x"]),
   ("price", .int 5)]

/-- C10 counterexample: `consolidate_data` serializes the record (the
tuple becomes a JSON array), so parsing its output does not yield the
input dictionary unchanged — the tuple value comes back as a list. -/
theorem C10_counterexample :
    consolidate_data (.ok (.dict c10Dict)) = json_dumps (.dict c10Dict) ∧
    json_dumps (.dict c10Dict) =
      "\x7b\"artisan_id\": \"a1\", \"enhanced_image_path\": \"p.png\", \"description\": \"d\", \"hashtags\": [\"#x\"], \"price\": 5\x7d" ∧
    ¬ toJsonNorm (.dict c10Dict) = .dict c10Dict := by
  refine ⟨rfl, rfl, ?_⟩
  intro h
  simp [toJsonNorm, toJsonNormKvs, toJsonNormList, c10Dict] at h

/-- C10 as amended: for every parsed dictionary containing the five
required keys, `consolidate_data` returns the JSON serialization of
exactly that dictionary (every entry preserved, extra keys included);
parsing the output yields the input dictionary unchanged precisely in
the tuple-free case (tuple values are coerced to lists by the
serialization round trip). -/
theorem C10_amended (kvs : List (String × PyVal))
    (hall : required_keys.all (fun k => hasKey kvs k) = true)
    (htf : tupleFreeKvs kvs = true) :
    consolidate_data (.ok (.dict kvs)) = json_dumps (.dict kvs) ∧
    toJsonNorm (.dict kvs) = .dict kvs := by
  constructor
  · simp [consolidate_data, hall]
  · simp [toJsonNorm, toJsonNormKvs_eq_of_tupleFree kvs htf]

/-- The C10 witness record: the five required keys, a list-valued
`hashtags`, and an extra key beyond the required five. -/
def c10wDict : List (String × PyVal) :=
  [("artisan_id", .str "a1"),
   ("enhanced_image_path", .str "p.png"),
   ("description", .str "d"),
   ("hashtags", .list [.str "#x"]),
   ("price", .int 5),
   ("extra", .str "kept")]

/-- Witness for C10 as amended, at a concrete tuple-free record with an
extra key. -/
theorem C10_witness :
    consolidate_data (.ok (.dict c10wDict)) = json_dumps (.dict c10wDict) ∧
    toJsonNorm (.dict c10wDict) = .dict c10wDict :=
  C10_amended c10wDict (by decide) (by decide)

end KalaSahayak
